import Mathlib

/-!
# Verification of the Q&A extraction pipeline (`scripts/extract_qa.py`)

Shallow embedding of the Gemini-powered Q&A extractor. The script reads
documents, sends their text to an extraction service constrained by a JSON
response schema, parses the response with `json.loads`, stamps per-file ids
onto the returned records, aggregates them across files, and optionally
prepends a previously persisted collection in append mode.

External effects are modelled explicitly:
* the extraction-service round trip (`model.generate_content` followed by
  `json.loads(response.text)`) is a function from the document content to a
  `SvcResult`: a transport/auth exception, a body whose text fails JSON
  parsing, or a parsed JSON value;
* file reading is opaque: each input file is a `FileInput` carrying the stem,
  the (not yet lowercased) suffix and the text its reader yields;
* the state of the output path before the run is an `Option (Option Json)`:
  `none` when the path does not exist, `some none` when it exists but its
  text fails `json.loads`, `some (some j)` when it parses to `j`.

Uncaught Python exceptions are the `.error` branch of `Except PyError`.
-/

namespace ExtractQA

/-- JSON values as produced by `json.loads`. Numbers are modelled as integers
(no claim exercises fractional numbers). -/
inductive Json where
  | null
  | bool (b : Bool)
  | num (n : Int)
  | str (s : String)
  | arr (elems : List Json)
  | obj (fields : List (String × Json))

/-- `SUPPORTED_TYPES` (line 18). -/
def SUPPORTED_TYPES : List String := [".docx", ".pdf", ".txt", ".xlsx", ".md"]

/-- The extensions registered in `READERS` (lines 75-81). -/
def READERS_keys : List String := [".txt", ".md", ".docx", ".pdf", ".xlsx"]

/-- One entry of the `MODELS` table: backend model id and sampling
temperature. The temperature is a configuration constant that is never
computed with, so it is carried as a rational. -/
structure ModelConfig where
  id : String
  temperature : ℚ
deriving DecidableEq

/-- The `MODELS` lookup table (lines 21-30): the selector
`gemini-3-flash-preview` maps to the backend id `gemini-3-pro-preview`. -/
def MODELS : List (String × ModelConfig) :=
  [("gemini-2.0-flash", ⟨"gemini-2.0-flash", 0.7⟩),
   ("gemini-3-flash-preview", ⟨"gemini-3-pro-preview", 1.0⟩)]

/-- Python `MODELS.get(model_key)`: first binding of the key, if any. -/
def MODELS_get (key : String) : Option ModelConfig :=
  (MODELS.find? (fun kv => kv.1 == key)).map Prod.snd

/-- The designated default entry `MODELS['gemini-2.0-flash']`. -/
def default_model_config : ModelConfig := ⟨"gemini-2.0-flash", 0.7⟩

/-- Line 120: `MODELS.get(model_key, MODELS['gemini-2.0-flash'])`. -/
def model_config (model_key : String) : ModelConfig :=
  (MODELS_get model_key).getD default_model_config

/-- The `response_schema` dict passed in `generation_config` (lines 128-139),
transcribed literally. -/
def response_schema : Json :=
  .obj [("type", .str "array"),
        ("items", .obj
          [("type", .str "object"),
           ("properties", .obj
             [("category", .obj [("type", .str "string")]),
              ("question", .obj [("type", .str "string")]),
              ("answer", .obj [("type", .str "string")])]),
           ("required", .arr [.str "category", .str "question", .str "answer"])])]

/-- `CategoryType` (line 84): the closed set of category literals. -/
def CategoryType : List String :=
  ["Personal", "Ethics", "Leadership", "Teamwork", "Healthcare", "Technical", "Other"]

/-- Python dict lookup on a JSON object; `none` on any other value or a
missing key. -/
def Json.getField (j : Json) (key : String) : Option Json :=
  match j with
  | .obj fields => (fields.find? (fun kv => kv.1 == key)).map Prod.snd
  | _ => none

/-- Python dict assignment `d[key] = v`: replace the first binding of the key
in place, or append a new binding at the end (insertion order). -/
def objSetField (fields : List (String × Json)) (key : String) (v : Json) :
    List (String × Json) :=
  match fields with
  | [] => [(key, v)]
  | (k, w) :: rest =>
      if k == key then (k, v) :: rest else (k, w) :: objSetField rest key v

/-- Does a parsed response conform to the shape `response_schema` declares:
an array whose elements are objects with string fields `category`,
`question`, `answer`? (The script itself never runs this check; it is stated
here to express the claims about schema conformance.) -/
def requiredStringField (fields : List (String × Json)) (key : String) : Bool :=
  match (fields.find? (fun kv => kv.1 == key)).map Prod.snd with
  | some (.str _) => true
  | _ => false

def schemaConforms (j : Json) : Bool :=
  match j with
  | .arr xs =>
      xs.all (fun e =>
        match e with
        | .obj fields =>
            requiredStringField fields "category" &&
            requiredStringField fields "question" &&
            requiredStringField fields "answer"
        | _ => false)
  | _ => false

/-- Python `not s.strip()`: `s.strip()` is falsy exactly when every
character of `s` is whitespace. -/
def isBlank (s : String) : Bool := s.data.all (fun c => c.isWhitespace)

/-- Python `s.lower()`. -/
def lowerStr (s : String) : String := (s.data.map Char.toLower).asString

/-- Uncaught Python exceptions that can escape the pipeline. -/
inductive PyError where
  | serviceError
  | jsonDecodeError
  | typeError
deriving DecidableEq

/-- Outcome of one `model.generate_content` call together with `json.loads`
on its text: a transport/auth exception, a body whose text is not valid
JSON, or the parsed value. -/
inductive SvcResult where
  | transportError
  | response (parsed : Option Json)

/-- `extract_with_gemini` (lines 97-144). The prompt is rendered from the
document content alone, so the service round trip is a function of the
content. The function returns `json.loads(response.text)` unvalidated;
transport errors and `json.JSONDecodeError` propagate as exceptions. -/
def extract_with_gemini (svc : String → SvcResult) (content : String) :
    Except PyError Json :=
  match svc content with
  | .transportError => .error .serviceError
  | .response none => .error .jsonDecodeError
  | .response (some j) => .ok j

/-- Decimal digit character, as Python formats digits. -/
def digitChar (d : Nat) : Char := Char.ofNat (48 + d)

/-- Decimal rendering, most significant digit first. Structural recursion on
a fuel argument that always suffices (`n + 1 > number of digits`). -/
def toDecimalAux (fuel n : Nat) (acc : List Char) : List Char :=
  match fuel with
  | 0 => acc
  | fuel + 1 =>
      let d := digitChar (n % 10)
      if n / 10 = 0 then d :: acc else toDecimalAux fuel (n / 10) (d :: acc)

/-- Python `str(n)` / `f"{n}"` for a nonnegative integer. -/
def natStr (n : Nat) : String := (toDecimalAux (n + 1) n []).asString

/-- Decimal parsing, used only as a left inverse of `toDecimalAux` to prove
that distinct positions get distinct ids. -/
def decToNat (cs : List Char) : Nat :=
  cs.foldl (fun a c => 10 * a + (c.toNat - 48)) 0

/-- The id stamped at line 167: `f"{file_path.stem}_{i+1}.md"`. -/
def qaId (stem : String) (i : Nat) : String :=
  stem ++ "_" ++ natStr (i + 1) ++ ".md"

/-- The loop at lines 166-167: `for i, qa in enumerate(qa_pairs):
qa['id'] = f"{file_path.stem}_{i+1}.md"`, started at index `i`. Each element
must be a dict; assigning `qa['id']` on any other element raises
`TypeError`. -/
def stampLoop (stem : String) (i : Nat) (xs : List Json) :
    Except PyError (List Json) :=
  match xs with
  | [] => .ok []
  | .obj fields :: rest =>
      match stampLoop stem (i + 1) rest with
      | .error e => .error e
      | .ok tail => .ok (.obj (objSetField fields "id" (.str (qaId stem i))) :: tail)
  | _ :: _ => .error .typeError

/-- Enumerate-and-stamp applied to whatever `json.loads` returned, expressed
as the list of records `all_qa.extend(qa_pairs)` will add. A JSON array is
the normal case. The other parse results follow CPython semantics: iterating
a non-empty string yields characters and a non-empty dict yields its keys,
and `qa['id'] = ...` on a string raises `TypeError`; an empty string or
empty dict skips the loop and extends the aggregate with nothing; `None`,
booleans and numbers are not iterable, raising `TypeError` at `enumerate`. -/
def stampAll (stem : String) (j : Json) : Except PyError (List Json) :=
  match j with
  | .arr xs => stampLoop stem 0 xs
  | .str s => if s = "" then .ok [] else .error .typeError
  | .obj fields => if fields.isEmpty then .ok [] else .error .typeError
  | _ => .error .typeError

/-- One input file as the core sees it: `file_path.stem`, `file_path.suffix`
(lowercased inside `process_file`), and the text its reader yields. -/
structure FileInput where
  stem : String
  suffix : String
  content : String

/-- `process_file` (lines 146-170): skip unsupported suffixes and
whitespace-only content with an empty result; otherwise call the service,
parse, and stamp ids. -/
def process_file (svc : String → SvcResult) (f : FileInput) :
    Except PyError (List Json) :=
  if lowerStr f.suffix ∈ READERS_keys then
    if isBlank f.content then .ok []
    else
      match extract_with_gemini svc f.content with
      | .error e => .error e
      | .ok j => stampAll f.stem j
  else .ok []

/-- The extraction loop of `main` (lines 222-226): `all_qa = []` then
`all_qa.extend(process_file(...))` per file, in order. There is no
`try`/`except`, so any exception terminates the run. -/
def runFiles (svc : String → SvcResult) (files : List FileInput) :
    Except PyError (List Json) :=
  match files with
  | [] => .ok []
  | f :: rest =>
      match process_file svc f with
      | .error e => .error e
      | .ok qa =>
          match runFiles svc rest with
          | .error e => .error e
          | .ok restQa => .ok (qa ++ restQa)

/-- Append handling (lines 229-232): when `--append` is given and the output
path exists, `json.loads` its text and evaluate `existing + all_qa`.
`priorFile` is the state of the output path (see the module docstring).
A prior value that is not a list makes `existing + all_qa` raise
`TypeError`; a prior text that is not valid JSON raises
`json.JSONDecodeError`. -/
def aggregate (append : Bool) (priorFile : Option (Option Json))
    (newQa : List Json) : Except PyError (List Json) :=
  if append then
    match priorFile with
    | none => .ok newQa
    | some none => .error .jsonDecodeError
    | some (some (.arr xs)) => .ok (xs ++ newQa)
    | some (some _) => .error .typeError
  else .ok newQa

/-- One whole run of `main` after argument parsing: extract from every file,
then apply append handling; the result is the list of records written to the
output path. An exception anywhere leaves the output path unwritten. -/
def main_run (svc : String → SvcResult) (append : Bool)
    (priorFile : Option (Option Json)) (files : List FileInput) :
    Except PyError (List Json) :=
  match runFiles svc files with
  | .error e => .error e
  | .ok newQa => aggregate append priorFile newQa

/-! ## Spreadsheet reader (`read_xlsx`, lines 60-73) -/

/-- A spreadsheet cell value as `openpyxl` yields it with `values_only=True`:
`None` for an empty cell, or a string, integer or boolean. Numeric cells are
modelled as integers. -/
inductive CellValue where
  | null
  | str (s : String)
  | int (n : Int)
  | bool (b : Bool)

/-- Python `str(n)` for an integer. -/
def intStr (n : Int) : String :=
  if n < 0 then "-" ++ natStr (-n).toNat else natStr n.toNat

/-- Python truthiness of a cell value: `None`, `""`, `0` and `False` are
falsy. -/
def pyTruthy : CellValue → Bool
  | .null => false
  | .str s => s != ""
  | .int n => n != 0
  | .bool b => b

/-- Python `str(c)` on a cell value. -/
def pyStr : CellValue → String
  | .null => "None"
  | .str s => s
  | .int n => intStr n
  | .bool b => if b then "True" else "False"

/-- Line 67, per cell: `str(c) if c else ''`. -/
def cellText (c : CellValue) : String :=
  if pyTruthy c then pyStr c else ""

/-- Line 67, per row: `'\t'.join(str(c) if c else '' for c in row)`. -/
def rowText (row : List CellValue) : String :=
  String.intercalate "\t" (row.map cellText)

/-- `read_xlsx` (lines 60-73) on a workbook given as its sheets, each a list
of rows of cell values: the nested loops accumulate each row's text when
`row_text.strip()` is truthy, then join with newlines. -/
def read_xlsx (wb : List (List (List CellValue))) : String :=
  String.intercalate "\n"
    (wb.foldl (fun acc sheet =>
      sheet.foldl (fun acc2 row =>
        if isBlank (rowText row) then acc2 else acc2 ++ [rowText row]) acc) [])

/-- Written from the spec's words (§4.1): tab-joined cell values per row,
rows taken across all sheets in workbook order, omitting rows whose joined
text is entirely whitespace. Compared with `read_xlsx` in the refinement
theorem. -/
def read_xlsx_spec (wb : List (List (List CellValue))) : String :=
  String.intercalate "\n" ((wb.flatten.map rowText).filter (fun t => !isBlank t))

/-! ## Helper lemmas: decimal rendering is injective -/

theorem toDecimalAux_acc (fuel : Nat) : ∀ (n : Nat) (acc : List Char),
    toDecimalAux fuel n acc = toDecimalAux fuel n [] ++ acc := by
  induction fuel with
  | zero => intro n acc; simp [toDecimalAux]
  | succ fuel ih =>
      intro n acc
      simp only [toDecimalAux]
      by_cases h : n / 10 = 0
      · simp [h]
      · simp only [h, if_false]
        rw [ih (n / 10) (digitChar (n % 10) :: acc), ih (n / 10) [digitChar (n % 10)],
          List.append_assoc]
        rfl

theorem toDecimalAux_fuel : ∀ (n fuel₁ fuel₂ : Nat) (acc : List Char),
    n < fuel₁ → n < fuel₂ → toDecimalAux fuel₁ n acc = toDecimalAux fuel₂ n acc := by
  intro n
  induction n using Nat.strong_induction_on with
  | _ n ih =>
    intro fuel₁ fuel₂ acc h₁ h₂
    obtain ⟨f₁, rfl⟩ : ∃ f, fuel₁ = f + 1 := ⟨fuel₁ - 1, by omega⟩
    obtain ⟨f₂, rfl⟩ : ∃ f, fuel₂ = f + 1 := ⟨fuel₂ - 1, by omega⟩
    simp only [toDecimalAux]
    by_cases h : n / 10 = 0
    · simp [h]
    · have hpos : 0 < n := Nat.pos_of_ne_zero (fun hn => h (by simp [hn]))
      have hlt : n / 10 < n := Nat.div_lt_self hpos (by norm_num)
      simp only [h, if_false]
      exact ih (n / 10) hlt f₁ f₂ _ (by omega) (by omega)

theorem digitChar_toNat : ∀ d : Nat, d < 10 → (digitChar d).toNat - 48 = d := by decide

theorem decToNat_append_digit (cs : List Char) (c : Char) :
    decToNat (cs ++ [c]) = 10 * decToNat cs + (c.toNat - 48) := by
  simp [decToNat, List.foldl_append]

theorem decToNat_toDecimal : ∀ n : Nat, decToNat (toDecimalAux (n + 1) n []) = n := by
  intro n
  induction n using Nat.strong_induction_on with
  | _ n ih =>
    simp only [toDecimalAux]
    by_cases h : n / 10 = 0
    · have hn : n < 10 := (Nat.div_eq_zero_iff (by norm_num)).mp h
      have hme : n % 10 = n := Nat.mod_eq_of_lt hn
      simp [h, decToNat, hme, digitChar_toNat n hn]
    · have hpos : 0 < n := Nat.pos_of_ne_zero (fun hn => h (by simp [hn]))
      have hlt : n / 10 < n := Nat.div_lt_self hpos (by norm_num)
      simp only [h, if_false]
      rw [toDecimalAux_acc, toDecimalAux_fuel (n / 10) n (n / 10 + 1) []
          hlt (Nat.lt_succ_self _),
        decToNat_append_digit, ih (n / 10) hlt,
        digitChar_toNat (n % 10) (Nat.mod_lt n (by norm_num))]
      omega

theorem natStr_data_inj {m n : Nat} (h : (natStr m).data = (natStr n).data) : m = n := by
  have h' : toDecimalAux (m + 1) m [] = toDecimalAux (n + 1) n [] := h
  calc m = decToNat (toDecimalAux (m + 1) m []) := (decToNat_toDecimal m).symm
    _ = decToNat (toDecimalAux (n + 1) n []) := by rw [h']
    _ = n := decToNat_toDecimal n

theorem qaId_inj (stem : String) {i j : Nat} (h : qaId stem i = qaId stem j) : i = j := by
  have hd := congrArg String.data h
  simp only [qaId, String.data_append, List.append_assoc] at hd
  have hd₁ := List.append_cancel_left hd
  have hd₂ := List.append_cancel_left hd₁
  have hd₃ := (List.append_inj' hd₂ rfl).1
  exact Nat.succ_injective (natStr_data_inj hd₃)

/-! ## Helper lemmas: id stamping and the extraction loop -/

theorem getField_objSet (fields : List (String × Json)) (key : String) (v : Json) :
    Json.getField (.obj (objSetField fields key v)) key = some v := by
  induction fields with
  | nil => simp [Json.getField, objSetField, List.find?]
  | cons kv rest ih =>
    obtain ⟨k, w⟩ := kv
    simp only [objSetField]
    cases hk : k == key with
    | true => simp [Json.getField, List.find?, hk]
    | false =>
      simp only [if_false, Bool.false_eq_true]
      simpa [Json.getField, List.find?, hk] using ih

theorem stampLoop_ok (stem : String) : ∀ (xs : List Json) (k : Nat) (ys : List Json),
    stampLoop stem k xs = .ok ys →
    ys.length = xs.length ∧
    ∀ i (hi : i < ys.length),
      (ys.get ⟨i, hi⟩).getField "id" = some (.str (qaId stem (k + i))) := by
  intro xs
  induction xs with
  | nil =>
    intro k ys h
    simp only [stampLoop] at h
    cases h
    simp
  | cons x rest ih =>
    intro k ys h
    cases x with
    | obj fields =>
      simp only [stampLoop] at h
      cases htail : stampLoop stem (k + 1) rest with
      | error e => rw [htail] at h; cases h
      | ok tail =>
        rw [htail] at h
        cases h
        obtain ⟨hlen, hids⟩ := ih (k + 1) tail htail
        refine ⟨by simp [hlen], ?_⟩
        intro i hi
        cases i with
        | zero => simpa using getField_objSet fields "id" (.str (qaId stem k))
        | succ i =>
          have hi' : i < tail.length := by simpa using hi
          have := hids i hi'
          have hk : k + 1 + i = k + (i + 1) := by omega
          rw [hk] at this
          simpa using this
    | null => simp [stampLoop] at h
    | bool b => simp [stampLoop] at h
    | num n => simp [stampLoop] at h
    | str s => simp [stampLoop] at h
    | arr elems => simp [stampLoop] at h

theorem runFiles_append (svc : String → SvcResult) :
    ∀ (fs₁ fs₂ : List FileInput) (r₁ r₂ : List Json),
    runFiles svc fs₁ = .ok r₁ → runFiles svc fs₂ = .ok r₂ →
    runFiles svc (fs₁ ++ fs₂) = .ok (r₁ ++ r₂) := by
  intro fs₁
  induction fs₁ with
  | nil =>
    intro fs₂ r₁ r₂ h₁ h₂
    simp only [runFiles] at h₁
    cases h₁
    simpa using h₂
  | cons f fs ih =>
    intro fs₂ r₁ r₂ h₁ h₂
    simp only [runFiles] at h₁ ⊢
    cases hf : process_file svc f with
    | error e => rw [hf] at h₁; cases h₁
    | ok qa =>
      rw [hf] at h₁
      cases hrest : runFiles svc fs with
      | error e => rw [hrest] at h₁; cases h₁
      | ok restQa =>
        rw [hrest] at h₁
        cases h₁
        have hcat := ih fs₂ restQa r₂ hrest h₂
        simp only [List.append_eq, hcat, List.append_assoc]

/-! ## Helper lemmas: the spreadsheet reader's loops -/

theorem read_xlsx_sheet_fold (rows : List (List CellValue)) :
    ∀ acc : List String,
    rows.foldl (fun acc2 row =>
        if isBlank (rowText row) then acc2 else acc2 ++ [rowText row]) acc
      = acc ++ (rows.map rowText).filter (fun t => !isBlank t) := by
  induction rows with
  | nil => intro acc; simp
  | cons r rs ih =>
    intro acc
    simp only [List.foldl_cons, List.map_cons, List.filter_cons]
    cases h : isBlank (rowText r) with
    | true => simp [h, ih]
    | false => simp [h, ih]

theorem read_xlsx_wb_fold (wb : List (List (List CellValue))) :
    ∀ acc : List String,
    wb.foldl (fun acc sheet =>
        sheet.foldl (fun acc2 row =>
          if isBlank (rowText row) then acc2 else acc2 ++ [rowText row]) acc) acc
      = acc ++ (wb.flatten.map rowText).filter (fun t => !isBlank t) := by
  induction wb with
  | nil => intro acc; simp
  | cons sheet sheets ih =>
    intro acc
    simp only [List.foldl_cons, List.flatten_cons, List.map_append, List.filter_append]
    rw [read_xlsx_sheet_fold, ih, List.append_assoc]

/-! ## Claim theorems -/

/-- C1 counterexample: a service response that parses as JSON but violates
the required shape (its only object lacks the `answer` field) is **not**
rejected by the extractor — the record is stamped and committed to the
aggregate, so the committed count for that file is one, not zero. -/
theorem schema_violating_response_committed :
    schemaConforms (.arr [.obj [("category", Json.str "Personal"),
        ("question", Json.str "q")]]) = false
    ∧ main_run
        (fun _ => SvcResult.response (some (.arr [.obj
          [("category", Json.str "Personal"), ("question", Json.str "q")]])))
        false none [⟨"f", ".txt", "some content"⟩]
      = .ok [Json.obj [("category", Json.str "Personal"), ("question", Json.str "q"),
             ("id", Json.str "f_1.md")]] := ⟨rfl, rfl⟩

/-- C1 (amended): the only client-side rejection is of a response whose text
fails JSON parsing; the raised `json.JSONDecodeError` propagates out of
`extract_with_gemini` and terminates the run, so zero records from that file
are committed. Responses that parse as JSON are committed without any
required-field check (required-shape enforcement is delegated to the
service via the request's `response_schema`). -/
theorem unparsable_response_rejected (svc : String → SvcResult) (f : FileInput)
    (rest : List FileInput) (hsup : lowerStr f.suffix ∈ READERS_keys)
    (hne : isBlank f.content = false) (hresp : svc f.content = .response none) :
    process_file svc f = .error .jsonDecodeError ∧
    runFiles svc (f :: rest) = .error .jsonDecodeError := by
  have h1 : process_file svc f = .error .jsonDecodeError := by
    simp [process_file, hsup, hne, extract_with_gemini, hresp]
  exact ⟨h1, by simp [runFiles, h1]⟩

theorem unparsable_response_rejected_witness :
    process_file (fun _ => SvcResult.response none) ⟨"f", ".txt", "x"⟩
      = .error .jsonDecodeError :=
  (unparsable_response_rejected (fun _ => SvcResult.response none) ⟨"f", ".txt", "x"⟩
    [] (by decide) rfl rfl).1

/-- C2 (code bug): the request's `response_schema` constrains `category`
only to `{'type': 'string'}` — the closed set declared by `CategoryType` is
not wired into it, so the service contract does not refuse other category
values. A response whose element conforms to the declared schema while
carrying the out-of-set category `"Cooking"` is committed to the aggregate
unchanged. -/
theorem category_enum_absent_from_schema :
    ((response_schema.getField "items").bind (fun j => j.getField "properties")).bind
        (fun j => j.getField "category")
      = some (.obj [("type", Json.str "string")])
    ∧ CategoryType.contains "Cooking" = false
    ∧ schemaConforms (.arr [.obj [("category", Json.str "Cooking"),
        ("question", Json.str "q"), ("answer", Json.str "a")]]) = true
    ∧ main_run
        (fun _ => SvcResult.response (some (.arr [.obj
          [("category", Json.str "Cooking"), ("question", Json.str "q"),
           ("answer", Json.str "a")]])))
        false none [⟨"f", ".txt", "doc"⟩]
      = .ok [Json.obj [("category", Json.str "Cooking"), ("question", Json.str "q"),
             ("answer", Json.str "a"), ("id", Json.str "f_1.md")]] :=
  ⟨rfl, rfl, rfl, rfl⟩

/-- C3 counterexample: with a service that fails on the first file's content
and would return one well-formed record for the second, the run terminates
with the uncaught service exception instead of continuing — processing the
second file alone would have committed its record. -/
theorem failed_call_terminates_run :
    runFiles
        (fun c => if c == "A" then SvcResult.transportError
          else .response (some (.arr [.obj [("category", Json.str "Technical"),
            ("question", Json.str "q"), ("answer", Json.str "a")]])))
        [⟨"a", ".txt", "A"⟩, ⟨"b", ".txt", "B"⟩] = .error .serviceError
    ∧ runFiles
        (fun c => if c == "A" then SvcResult.transportError
          else .response (some (.arr [.obj [("category", Json.str "Technical"),
            ("question", Json.str "q"), ("answer", Json.str "a")]])))
        [⟨"b", ".txt", "B"⟩]
      = .ok [Json.obj [("category", Json.str "Technical"), ("question", Json.str "q"),
             ("answer", Json.str "a"), ("id", Json.str "b_1.md")]]
    ∧ main_run
        (fun c => if c == "A" then SvcResult.transportError
          else .response (some (.arr [.obj [("category", Json.str "Technical"),
            ("question", Json.str "q"), ("answer", Json.str "a")]])))
        false none [⟨"a", ".txt", "A"⟩, ⟨"b", ".txt", "B"⟩] = .error .serviceError :=
  ⟨rfl, rfl, rfl⟩

/-- C3 (amended): a failed extraction call for one file raises an uncaught
exception that terminates the whole run — no remaining file is processed and
no output is written, so every file contributes zero records. -/
theorem failed_call_aborts_whole_run (svc : String → SvcResult) (f : FileInput)
    (rest : List FileInput) (e : PyError) (h : process_file svc f = .error e) :
    runFiles svc (f :: rest) = .error e ∧
    ∀ (append : Bool) (priorFile : Option (Option Json)),
      main_run svc append priorFile (f :: rest) = .error e := by
  have h1 : runFiles svc (f :: rest) = .error e := by simp [runFiles, h]
  exact ⟨h1, fun append priorFile => by simp [main_run, h1]⟩

theorem failed_call_aborts_whole_run_witness :
    runFiles (fun _ => SvcResult.transportError) [⟨"a", ".txt", "doc"⟩]
      = .error .serviceError :=
  (failed_call_aborts_whole_run (fun _ => SvcResult.transportError)
    ⟨"a", ".txt", "doc"⟩ [] .serviceError rfl).1

/-- C4: append mode is associative. A first run over `fs₁` writes exactly its
extracted records `r₁`; a second run in append mode over `fs₂`, whose prior
output parses back to `r₁`, writes `r₁ ++ r₂` — the prior records prepended
verbatim (never re-stamped or deduplicated) before all new records — and this
equals the output of one run over `fs₁ ++ fs₂`. Extraction is deterministic
given the service behaviour `svc`, which is held fixed across the runs. -/
theorem append_mode_associative (svc : String → SvcResult) (fs₁ fs₂ : List FileInput)
    (r₁ r₂ : List Json) (h₁ : runFiles svc fs₁ = .ok r₁)
    (h₂ : runFiles svc fs₂ = .ok r₂) :
    main_run svc false none fs₁ = .ok r₁ ∧
    main_run svc true (some (some (.arr r₁))) fs₂ = .ok (r₁ ++ r₂) ∧
    main_run svc false none (fs₁ ++ fs₂) = .ok (r₁ ++ r₂) := by
  refine ⟨by simp [main_run, h₁, aggregate], by simp [main_run, h₂, aggregate], ?_⟩
  simp [main_run, runFiles_append svc fs₁ fs₂ r₁ r₂ h₁ h₂, aggregate]

theorem append_mode_associative_witness :
    main_run
        (fun _ => SvcResult.response (some (.arr [.obj
          [("category", Json.str "Personal"), ("question", Json.str "tq"),
           ("answer", Json.str "ta")]])))
        true
        (some (some (.arr [Json.obj [("category", Json.str "Personal"),
          ("question", Json.str "tq"), ("answer", Json.str "ta"),
          ("id", Json.str "a_1.md")]])))
        [⟨"b", ".txt", "y"⟩]
      = .ok ([Json.obj [("category", Json.str "Personal"), ("question", Json.str "tq"),
              ("answer", Json.str "ta"), ("id", Json.str "a_1.md")]]
             ++ [Json.obj [("category", Json.str "Personal"), ("question", Json.str "tq"),
              ("answer", Json.str "ta"), ("id", Json.str "b_1.md")]]) :=
  (append_mode_associative
    (fun _ => SvcResult.response (some (.arr [.obj
      [("category", Json.str "Personal"), ("question", Json.str "tq"),
       ("answer", Json.str "ta")]])))
    [⟨"a", ".txt", "x"⟩] [⟨"b", ".txt", "y"⟩]
    [Json.obj [("category", Json.str "Personal"), ("question", Json.str "tq"),
      ("answer", Json.str "ta"), ("id", Json.str "a_1.md")]]
    [Json.obj [("category", Json.str "Personal"), ("question", Json.str "tq"),
      ("answer", Json.str "ta"), ("id", Json.str "b_1.md")]]
    rfl rfl).2.1

/-- C5: a file whose raw text is empty or whitespace-only yields zero records,
and the result holds for **every** service behaviour `svc` — the extraction
service is never consulted (the blank-content check short-circuits before the
call). -/
theorem blank_content_short_circuits (svc : String → SvcResult) (f : FileInput)
    (h : isBlank f.content = true) : process_file svc f = .ok [] := by
  simp [process_file, h]

/-- Instantiated at a service whose every call fails: had the service been
called, the run would have aborted instead of returning zero records. -/
theorem blank_content_short_circuits_witness :
    process_file (fun _ => SvcResult.transportError) ⟨"notes", ".txt", " \t\n "⟩
      = .ok [] :=
  blank_content_short_circuits (fun _ => SvcResult.transportError)
    ⟨"notes", ".txt", " \t\n "⟩ rfl

/-- C6: when the stamping loop over a file's batch succeeds, it preserves the
batch length and order, stamps the record at zero-based position `i` with the
identifier `{stem}_{i+1}.md`, and the identifiers within the batch are
pairwise distinct. Assignment is a pure function of the stem and position,
hence deterministic. -/
theorem id_assignment_positional (stem : String) (xs ys : List Json)
    (h : stampLoop stem 0 xs = .ok ys) :
    ys.length = xs.length ∧
    (∀ i (hi : i < ys.length),
      (ys.get ⟨i, hi⟩).getField "id"
        = some (.str (stem ++ "_" ++ natStr (i + 1) ++ ".md"))) ∧
    (∀ i j (hi : i < ys.length) (hj : j < ys.length), i ≠ j →
      (ys.get ⟨i, hi⟩).getField "id" ≠ (ys.get ⟨j, hj⟩).getField "id") := by
  obtain ⟨hlen, hids⟩ := stampLoop_ok stem xs 0 ys h
  refine ⟨hlen, ?_, ?_⟩
  · intro i hi
    have hthis := hids i hi
    rw [Nat.zero_add] at hthis
    simpa [qaId] using hthis
  · intro i j hi hj hne heq
    rw [hids i hi, hids j hj] at heq
    simp only [Option.some.injEq, Json.str.injEq] at heq
    exact hne (by have := qaId_inj stem heq; omega)

theorem id_assignment_positional_witness :
    (([Json.obj [("id", Json.str "interview_1.md")],
       Json.obj [("id", Json.str "interview_2.md")],
       Json.obj [("id", Json.str "interview_3.md")]].get
        ⟨1, by decide⟩).getField "id")
      = some (.str ("interview" ++ "_" ++ natStr (1 + 1) ++ ".md")) :=
  (id_assignment_positional "interview" [Json.obj [], Json.obj [], Json.obj []]
    [Json.obj [("id", Json.str "interview_1.md")],
     Json.obj [("id", Json.str "interview_2.md")],
     Json.obj [("id", Json.str "interview_3.md")]] rfl).2.1 1 (by decide)

/-- C7: a selector present in the `MODELS` table resolves to exactly that
entry; a selector absent from the table resolves to the designated default
entry `MODELS['gemini-2.0-flash']` rather than failing — and that default is
itself an entry of the table. -/
theorem model_selector_fallback :
    (∀ key, MODELS_get key = none → model_config key = default_model_config) ∧
    (∀ key cfg, MODELS_get key = some cfg → model_config key = cfg) ∧
    MODELS_get "gemini-2.0-flash" = some default_model_config := by
  refine ⟨?_, ?_, rfl⟩
  · intro key h; simp [model_config, h]
  · intro key cfg h; simp [model_config, h]

theorem model_selector_fallback_witness :
    model_config "mystery-model" = default_model_config ∧
    model_config "gemini-3-flash-preview" = ⟨"gemini-3-pro-preview", 1.0⟩ :=
  ⟨model_selector_fallback.1 "mystery-model" rfl,
   model_selector_fallback.2.1 "gemini-3-flash-preview"
     ⟨"gemini-3-pro-preview", 1.0⟩ rfl⟩

/-- C8: the spreadsheet reader's nested accumulation loops compute exactly
the declarative description written from the spec — the tab-joined rendering
of each row, rows taken across all sheets in workbook order, rows whose
joined text is entirely whitespace omitted — and an empty (`None`) cell
renders as the empty string, not a placeholder. -/
theorem read_xlsx_matches_spec (wb : List (List (List CellValue))) :
    read_xlsx wb = read_xlsx_spec wb ∧ cellText CellValue.null = "" := by
  constructor
  · simp [read_xlsx, read_xlsx_spec, read_xlsx_wb_fold wb []]
  · rfl

/-- C9: every falsy cell value — `None`, but also `0`, `False` and `""` —
renders as the empty string rather than as `str` of the value, so `0` and
`False` are silently dropped from the row text (`str` would have given
`"0"` and `"False"`). -/
theorem falsy_cells_render_empty :
    (∀ c, pyTruthy c = false → cellText c = "") ∧
    cellText (CellValue.int 0) = "" ∧ cellText (CellValue.bool false) = "" ∧
    cellText (CellValue.str "") = "" ∧
    pyStr (CellValue.int 0) = "0" ∧ pyStr (CellValue.bool false) = "False" ∧
    rowText [CellValue.int 0, CellValue.str "a"] = "\ta" := by
  refine ⟨?_, rfl, rfl, rfl, rfl, rfl, rfl⟩
  intro c h
  simp [cellText, h]

theorem falsy_cells_render_empty_witness :
    cellText (CellValue.int 0) = "" :=
  falsy_cells_render_empty.1 (CellValue.int 0) rfl

/-- C10: when append mode is requested but the output path does not exist
(`priorFile = none`), the run succeeds and writes exactly the newly
extracted records — no missing-file or corrupt-prior failure is raised. -/
theorem append_without_existing_output (svc : String → SvcResult)
    (files : List FileInput) (r : List Json) (h : runFiles svc files = .ok r) :
    main_run svc true none files = .ok r := by
  simp [main_run, h, aggregate]

theorem append_without_existing_output_witness :
    main_run (fun _ => SvcResult.response (some (.arr []))) true none
      [⟨"a", ".txt", "x"⟩] = .ok [] :=
  append_without_existing_output (fun _ => SvcResult.response (some (.arr [])))
    [⟨"a", ".txt", "x"⟩] [] rfl

end ExtractQA
